import Mathlib

/-!
Verification of the Trivia-Game-Server-Client repository.

The protocol codec (`chatlib.py`) and the server's session/command handlers
(`multi_server.py`) are embedded shallowly: Python strings become `List Char`,
Python dicts become association lists, Python `int` becomes `Int`, and the one
source of randomness (`random.choice`) becomes an oracle index `k` reduced
modulo the list length, so that universally quantifying over `k` covers every
choice the source can make.  A handler that can raise an uncaught Python
exception returns `Option`, with `none` for the exception.
-/

namespace Chatlib

/-- Python strings are modelled as lists of characters. -/
abbrev Str := List Char

def CMD_FIELD_LENGTH : Nat := 16
def LENGTH_FIELD_LENGTH : Nat := 4
def MAX_DATA_LENGTH : Nat := 10 ^ LENGTH_FIELD_LENGTH - 1
def MSG_HEADER_LENGTH : Nat := CMD_FIELD_LENGTH + 1 + LENGTH_FIELD_LENGTH + 1
def DELIMITER : Char := '|'
def DATA_DELIMITER : Char := '#'

/-- Characters Python's `str.strip()` removes (ASCII whitespace). -/
def pyIsSpace (c : Char) : Bool :=
  c == ' ' || c == '\t' || c == '\n' || c == '\x0b' || c == '\x0c' || c == '\r'

/-- Python `str.lstrip()`. -/
def lstrip (s : Str) : Str := s.dropWhile pyIsSpace

/-- Python `str.rstrip()`. -/
def rstrip (s : Str) : Str := (s.reverse.dropWhile pyIsSpace).reverse

/-- Python `str.strip()`: whitespace removed from both ends. -/
def pyStrip (s : Str) : Str := lstrip (rstrip s)

/-- Python `str.ljust(w)` with the default space fill character. -/
def ljust (s : Str) (w : Nat) : Str := s ++ List.replicate (w - s.length) ' '

/-- Python `str.zfill(w)` on a digit string (no sign handling needed here). -/
def zfill (w : Nat) (s : Str) : Str := List.replicate (w - s.length) '0' ++ s

/-- Most-significant-first decimal digits of `n`, with structural fuel so that
the kernel can evaluate it; callers pass `n` itself as fuel. -/
def natToDigitsAux : Nat → Nat → List Char
  | 0, _ => []
  | fuel + 1, n =>
    if n = 0 then [] else natToDigitsAux fuel (n / 10) ++ [Nat.digitChar (n % 10)]

/-- Python `str(n)` for a natural number: its decimal digit string. -/
def natToStr (n : Nat) : Str :=
  if n = 0 then ['0'] else natToDigitsAux n n

/-- Python `str(n)` for an integer. -/
def intToStr (n : Int) : Str :=
  if n < 0 then '-' :: natToStr n.natAbs else natToStr n.toNat

/-- Value of an ASCII decimal digit string. -/
def parseDigits (s : Str) : Nat := s.foldl (fun a c => a * 10 + (c.toNat - 48)) 0

/-- Start codepoints of the 66 runs of ten consecutive Unicode decimal digits
(category Nd) that Python 3's `int()` accepts; each run carries the values
0 to 9 in order. Extracted from CPython's Unicode tables. -/
def decimalRunStarts : List Nat :=
  [0x30, 0x660, 0x6F0, 0x7C0, 0x966, 0x9E6, 0xA66, 0xAE6, 0xB66, 0xBE6,
   0xC66, 0xCE6, 0xD66, 0xDE6, 0xE50, 0xED0, 0xF20, 0x1040, 0x1090, 0x17E0,
   0x1810, 0x1946, 0x19D0, 0x1A80, 0x1A90, 0x1B50, 0x1BB0, 0x1C40, 0x1C50,
   0xA620, 0xA8D0, 0xA900, 0xA9D0, 0xA9F0, 0xAA50, 0xABF0, 0xFF10, 0x104A0,
   0x10D30, 0x11066, 0x110F0, 0x11136, 0x111D0, 0x112F0, 0x11450, 0x114D0,
   0x11650, 0x116C0, 0x11730, 0x118E0, 0x11950, 0x11C50, 0x11D50, 0x11DA0,
   0x16A60, 0x16AC0, 0x16B50, 0x1D7CE, 0x1D7D8, 0x1D7E2, 0x1D7EC, 0x1D7F6,
   0x1E140, 0x1E2F0, 0x1E950, 0x1FBF0]

/-- Codepoint ranges of the characters `str.isdigit` accepts although `int()`
rejects them with `ValueError` (Numeric_Type=Digit without a decimal value:
superscripts, subscripts, circled digits and the like). Extracted from
CPython's Unicode tables. -/
def digitOnlyRanges : List (Nat × Nat) :=
  [(0xB2, 0xB3), (0xB9, 0xB9), (0x1369, 0x1371), (0x19DA, 0x19DA),
   (0x2070, 0x2070), (0x2074, 0x2079), (0x2080, 0x2089), (0x2460, 0x2468),
   (0x2474, 0x247C), (0x2488, 0x2490), (0x24EA, 0x24EA), (0x24F5, 0x24FD),
   (0x24FF, 0x24FF), (0x2776, 0x277E), (0x2780, 0x2788), (0x278A, 0x2792),
   (0x10A40, 0x10A43), (0x10E60, 0x10E68), (0x11052, 0x1105A),
   (0x1F100, 0x1F10A)]

/-- Decimal value Python's `int()` assigns a single character; `none` when the
character is not a Unicode decimal digit. -/
def pyDecimalVal (c : Char) : Option Nat :=
  (decimalRunStarts.find? (fun s => decide (s ≤ c.toNat ∧ c.toNat < s + 10))).map
    (fun s => c.toNat - s)

/-- Characters `int()` accepts as digits (Unicode category Nd). -/
def pyIsDecimal (c : Char) : Bool := (pyDecimalVal c).isSome

/-- Python `str.isdigit` on one character: decimal digits plus the
digit-but-not-decimal characters. -/
def pyIsdigit (c : Char) : Bool :=
  pyIsDecimal c ||
    digitOnlyRanges.any (fun p => decide (p.1 ≤ c.toNat ∧ c.toNat ≤ p.2))

/-- Value Python's `int()` gives an all-decimal digit string. -/
def decimalValue (s : Str) : Nat :=
  s.foldl (fun a c => a * 10 + (pyDecimalVal c).getD 0) 0

/-- Python `int(s)` on a string whose characters all pass `str.isdigit`: it
succeeds exactly when every character is a decimal digit; otherwise it raises
`ValueError`, modelled as `none`. -/
def pyIntDigits (s : Str) : Option Nat :=
  if s.all pyIsDecimal then some (decimalValue s) else none

/-- Python `int(s)` on an optionally signed ASCII digit string; `none` models
the `ValueError` that the source catches. -/
def pyInt (s : Str) : Option Int :=
  match s with
  | [] => none
  | c :: rest =>
    if c = '-' then
      if rest ≠ [] ∧ rest.all Char.isDigit then some (-(parseDigits rest : Int)) else none
    else if c = '+' then
      if rest ≠ [] ∧ rest.all Char.isDigit then some (parseDigits rest : Int) else none
    else
      if (c :: rest).all Char.isDigit then some (parseDigits (c :: rest) : Int) else none

/-- Embedding of `chatlib.build_message`: pads the command to 16 characters,
renders the data length as a 4-digit zero-padded decimal, and joins the three
fields with `|`; `none` is the source's `None` error sentinel. -/
def build_message (cmd data : Str) : Option Str :=
  if CMD_FIELD_LENGTH < cmd.length ∨ MAX_DATA_LENGTH < data.length then none
  else if DELIMITER ∈ cmd ∨ DATA_DELIMITER ∈ cmd then none
  else some (ljust cmd CMD_FIELD_LENGTH ++
    DELIMITER :: (zfill LENGTH_FIELD_LENGTH (natToStr data.length) ++ DELIMITER :: data))

/-- Outcome of `chatlib.parse_message`: the source's `(None, None)` error
sentinel, a successful parse, or an exception escaping the function (the
uncaught `ValueError` from `int()` on a digit-like but non-decimal length
field; the caller `recv_message_and_parse` catches it). -/
inductive ParseResult where
  | sentinel
  | ok (cmd data : Str)
  | raised
deriving DecidableEq

/-- Embedding of `chatlib.parse_message`: checks the two delimiter positions,
strips the command field, validates the length field with `str.isdigit` and
converts it with `int()`, then checks the declared data length. -/
def parse_message (message : Str) : ParseResult :=
  if message.length < MSG_HEADER_LENGTH then .sentinel
  else if message[CMD_FIELD_LENGTH]? ≠ some DELIMITER then .sentinel
  else if message[CMD_FIELD_LENGTH + 1 + LENGTH_FIELD_LENGTH]? ≠ some DELIMITER
  then .sentinel
  else
    if ¬ ((message.drop (CMD_FIELD_LENGTH + 1)).take LENGTH_FIELD_LENGTH).all pyIsdigit
    then .sentinel
    else
      match pyIntDigits ((message.drop (CMD_FIELD_LENGTH + 1)).take LENGTH_FIELD_LENGTH) with
      | none => .raised
      | some msg_length =>
        if ((message.drop MSG_HEADER_LENGTH).take msg_length).length ≠ msg_length
        then .sentinel
        else .ok (pyStrip (message.take CMD_FIELD_LENGTH))
          ((message.drop MSG_HEADER_LENGTH).take msg_length)

/-- Python `s.split(sep)` for a single-character separator. -/
def splitOnChar (sep : Char) : Str → List Str
  | [] => [[]]
  | c :: rest =>
    match splitOnChar sep rest with
    | [] => [[]]
    | h :: t => if c = sep then [] :: h :: t else (c :: h) :: t

/-- Embedding of `chatlib.split_data`. -/
def split_data (msg : Str) (expected_fields : Nat) : Option (List Str) :=
  if msg = [] then
    if expected_fields = 1 then some [[]] else none
  else
    if (splitOnChar DATA_DELIMITER msg).length = expected_fields
    then some (splitOnChar DATA_DELIMITER msg) else none

/-- Embedding of `chatlib.join_data`. -/
def join_data (msg_fields : List Str) : Str := List.intercalate [DATA_DELIMITER] msg_fields

end Chatlib

namespace Server

open Chatlib

/-- Shorthand turning a Lean string literal into the `List Char` model. -/
def strL (s : String) : Str := s.data

abbrev Username := Str

/-- Peer addresses (`conn.getpeername()` results) are opaque identifiers. -/
abbrev Addr := Nat

/-- Value type of the `users` dictionary: `{password, score, questions_asked}`. -/
structure UserData where
  password : Str
  score : Int
  questions_asked : List Int
deriving DecidableEq

/-- Value type of the `questions` dictionary: `{question, answers, correct}`. -/
structure Question where
  question : Str
  answers : List Str
  correct : Int
deriving DecidableEq

/-- The server's three global mutable dictionaries, as association lists. -/
structure ServerState where
  users : List (Username × UserData)
  questions : List (Int × Question)
  logged_users : List (Addr × Username)
deriving DecidableEq

/-- Python `d[k]` read (`none` models `KeyError` / `k not in d` being false). -/
def dictGet {κ α : Type} [DecidableEq κ] : List (κ × α) → κ → Option α
  | [], _ => none
  | (k', v) :: t, k => if k' = k then some v else dictGet t k

/-- In-place mutation of the value at a key (e.g. `d[k]['score'] += 5`). -/
def dictUpdate {κ α : Type} [DecidableEq κ] : List (κ × α) → κ → (α → α) → List (κ × α)
  | [], _, _ => []
  | (k', v) :: t, k, f =>
    (if k' = k then (k', f v) else (k', v)) :: dictUpdate t k f

/-- Python `d[k] = v`: overwrite the entry if the key exists, else append. -/
def dictSet {κ α : Type} [DecidableEq κ] (l : List (κ × α)) (k : κ) (v : α) :
    List (κ × α) :=
  if (dictGet l k).isSome then dictUpdate l k (fun _ => v) else l ++ [(k, v)]

/-- Python `del d[k]`. -/
def dictDel {κ α : Type} [DecidableEq κ] (l : List (κ × α)) (k : κ) : List (κ × α) :=
  l.filter (fun p => p.1 ≠ k)

/-- Python list indexing `l[i]` with negative-index wraparound; `none` models
an uncaught `IndexError`. -/
def pyIndex {α : Type} (l : List α) (i : Int) : Option α :=
  if i < 0 then
    if (l.length : Int) + i < 0 then none else l[((l.length : Int) + i).toNat]?
  else l[i.toNat]?

/-- PROTOCOL_CLIENT values used by the dispatcher. -/
def login_msg : Str := strL "LOGIN"
def logout_msg : Str := strL "LOGOUT"
def getscore_msg : Str := strL "MY_SCORE"
def getlogged_msg : Str := strL "LOGGED"
def gethighscore_msg : Str := strL "HIGHSCORE"
def getquestion_msg : Str := strL "GET_QUESTION"
def sendanswer_msg : Str := strL "SEND_ANSWER"

/-- PROTOCOL_SERVER values used by the handlers. -/
def login_ok_msg : Str := strL "LOGIN_OK"
def yourscore_msg : Str := strL "YOUR_SCORE"
def highscore_msg : Str := strL "ALL_SCORE"
def logged_msg : Str := strL "LOGGED_ANSWER"
def correct_msg : Str := strL "CORRECT_ANSWER"
def wrong_msg : Str := strL "WRONG_ANSWER"
def question_msg : Str := strL "YOUR_QUESTION"
def error_msg : Str := strL "ERROR"
def noquestions_msg : Str := strL "NO_QUESTIONS"

/-- One entry of the outbound queue: the `(code, data)` pair a handler passes
to `build_and_send_message`. -/
abbrev Msg := Str × Str

/-- Embedding of `handle_login_message`; returns the updated state and the one
queued response. -/
def handle_login_message (st : ServerState) (addr : Addr) (data : Str) :
    ServerState × Msg :=
  match Chatlib.split_data data 2 with
  | none => (st, (error_msg, strL "Invalid login data"))
  | some fields =>
    match fields with
    | [username, password] =>
      match dictGet st.users username with
      | none =>
        (st, (error_msg, strL "User '" ++ username ++ strL "' does not exist"))
      | some u =>
        if u.password ≠ password then (st, (error_msg, strL "Incorrect password"))
        else ({st with logged_users := dictSet st.logged_users addr username},
          (login_ok_msg, strL "Welcome " ++ username ++ strL "!"))
    | _ => (st, (error_msg, strL "Invalid login data"))

/-- Embedding of `handle_logout_message`; the boolean records whether
`save_user_database()` was invoked. -/
def handle_logout_message (st : ServerState) (addr : Addr) : ServerState × Bool :=
  match dictGet st.logged_users addr with
  | some _ => ({st with logged_users := dictDel st.logged_users addr}, true)
  | none => (st, false)

/-- Embedding of `handle_getscore_message`; it never mutates state. -/
def handle_getscore_message (st : ServerState) (username : Username) : Msg :=
  match dictGet st.users username with
  | none => (error_msg, strL "User '" ++ username ++ strL "' does not exist")
  | some u => (yourscore_msg, Chatlib.intToStr u.score)

/-- Stable insertion step for sorting users by descending score. -/
def insertDesc (p : Username × UserData) :
    List (Username × UserData) → List (Username × UserData)
  | [] => [p]
  | q :: t => if q.2.score < p.2.score then p :: q :: t else q :: insertDesc p t

/-- Stable descending-by-score sort, modelling `sorted(..., reverse=True)`. -/
def sortDesc (l : List (Username × UserData)) : List (Username × UserData) :=
  l.foldr insertDesc []

/-- Embedding of `handle_highscore_message`; it never mutates state. -/
def handle_highscore_message (st : ServerState) : Msg :=
  (highscore_msg,
    List.intercalate ['\n']
      ((sortDesc st.users).map (fun p => p.1 ++ ':' :: Chatlib.intToStr p.2.score)))

/-- Embedding of `handle_logged_message`; it never mutates state. -/
def handle_logged_message (st : ServerState) : Msg :=
  (logged_msg, Chatlib.join_data (st.logged_users.map Prod.snd))

/-- Outcome of `create_random_question`: `crash` models the `KeyError` raised
by `users[username]` when the username is absent. -/
inductive PickResult where
  | crash
  | noQuestion
  | picked (qstr : Str) (q_num : Int)
deriving DecidableEq

/-- Embedding of `create_random_question`.  `random.choice(available_qs)` is
modelled by indexing with the oracle `k` modulo the list length, so every
element the source can pick corresponds to some `k`. -/
def create_random_question (st : ServerState) (username : Username) (k : Nat) :
    PickResult :=
  if st.questions = [] then .noQuestion
  else
    match dictGet st.users username with
    | none => .crash
    | some u =>
      match (st.questions.map Prod.fst).filter (fun q => decide (q ∉ u.questions_asked)) with
      | [] => .noQuestion
      | q₀ :: rest =>
        match dictGet st.questions ((q₀ :: rest).getD (k % (q₀ :: rest).length) q₀) with
        | none => .crash
        | some q_data =>
          .picked
            (Chatlib.intToStr ((q₀ :: rest).getD (k % (q₀ :: rest).length) q₀) ++
              '#' :: (q_data.question ++ '#' :: List.intercalate ['#'] q_data.answers))
            ((q₀ :: rest).getD (k % (q₀ :: rest).length) q₀)

/-- Mutation `users[username]["questions_asked"].append(q_num)` on one record. -/
def appendAsked (q_num : Int) (u : UserData) : UserData :=
  {u with questions_asked := u.questions_asked ++ [q_num]}

/-- Mutation `users[username]['score'] += 5` on one record. -/
def addReward (u : UserData) : UserData :=
  {u with score := u.score + 5}

/-- Embedding of `handle_question_message`; returns the new state, the queued
response and whether `save_user_database()` was invoked; `none` models an
uncaught exception. -/
def handle_question_message (st : ServerState) (username : Username) (k : Nat) :
    Option (ServerState × Msg × Bool) :=
  match create_random_question st username k with
  | .crash => none
  | .picked qstr q_num =>
    some ({st with users := dictUpdate st.users username (appendAsked q_num)},
      (question_msg, qstr), true)
  | .noQuestion => some (st, (error_msg, strL "No more questions available"), false)

/-- Parse step of `handle_answer_message`: `data.split("#")` unpacked into
exactly two variables, each fed to `int(...)`; `none` models the caught
exception that yields the "Invalid answer format" error. -/
def parse_answer_data (data : Str) : Option (Int × Int) :=
  match Chatlib.splitOnChar Chatlib.DATA_DELIMITER data with
  | [a, b] =>
    match Chatlib.pyInt a, Chatlib.pyInt b with
    | some q_num, some user_ans => some (q_num, user_ans)
    | _, _ => none
  | _ => none

/-- Embedding of `handle_answer_message`; returns the new state, the queued
response and whether `save_user_database()` was invoked; `none` models an
uncaught exception (`KeyError` on the username or `IndexError` on the
answers list). -/
def handle_answer_message (st : ServerState) (username : Username) (data : Str) :
    Option (ServerState × Msg × Bool) :=
  match parse_answer_data data with
  | none => some (st, (error_msg, strL "Invalid answer format"), false)
  | some (q_num, user_ans) =>
    match dictGet st.questions q_num with
    | none => some (st, (error_msg, strL "Question does not exist"), false)
    | some q =>
      if user_ans = q.correct then
        match dictGet st.users username with
        | none => none
        | some _ =>
          some ({st with users := dictUpdate st.users username addReward},
            (correct_msg, ['5']), false)
      else
        match pyIndex q.answers (q.correct - 1) with
        | none => none
        | some correct_text =>
          some (st, (wrong_msg, Chatlib.intToStr q.correct ++ ',' :: correct_text), false)

/-- Result of one dispatch of `handle_client_message`: final state, queued
responses, whether the user database was saved, and the handler's
keep-connection-alive return value. -/
structure DispatchResult where
  st : ServerState
  msgs : List Msg
  saved : Bool
  alive : Bool
deriving DecidableEq

/-- Embedding of `handle_client_message`, the command dispatcher; `none`
models an uncaught exception inside a handler. -/
def handle_client_message (st : ServerState) (addr : Addr) (cmd data : Str)
    (k : Nat) : Option DispatchResult :=
  match dictGet st.logged_users addr with
  | none =>
    if cmd ≠ login_msg then
      some ⟨st, [(error_msg, strL "You must login first")], false, true⟩
    else
      some ⟨(handle_login_message st addr data).1,
        [(handle_login_message st addr data).2], false, true⟩
  | some username =>
    if cmd = logout_msg then
      some ⟨(handle_logout_message st addr).1, [], (handle_logout_message st addr).2, false⟩
    else if cmd = getscore_msg then
      some ⟨st, [handle_getscore_message st username], false, true⟩
    else if cmd = gethighscore_msg then
      some ⟨st, [handle_highscore_message st], false, true⟩
    else if cmd = getlogged_msg then
      some ⟨st, [handle_logged_message st], false, true⟩
    else if cmd = getquestion_msg then
      (handle_question_message st username k).map (fun r => ⟨r.1, [r.2.1], r.2.2, true⟩)
    else if cmd = sendanswer_msg then
      (handle_answer_message st username data).map (fun r => ⟨r.1, [r.2.1], r.2.2, true⟩)
    else
      some ⟨st, [(error_msg, strL "Unsupported command")], false, true⟩

end Server

namespace Chatlib

lemma dropWhile_append_of_all {p : Char → Bool} {l : List Char} (t : List Char)
    (h : ∀ a ∈ l, p a) : (l ++ t).dropWhile p = t.dropWhile p := by
  induction l with
  | nil => rfl
  | cons c cs ih =>
    have hc : p c = true := h c (by simp)
    simpa [List.dropWhile_cons, hc] using ih (fun a ha => h a (by simp [ha]))

lemma rstrip_append_spaces (s : Str) (k : Nat) :
    rstrip (s ++ List.replicate k ' ') = rstrip s := by
  unfold rstrip
  rw [List.reverse_append, List.reverse_replicate,
    dropWhile_append_of_all _ (fun a ha => ?_)]
  have := List.eq_of_mem_replicate ha
  subst this
  rfl

lemma pyStrip_append_spaces (s : Str) (k : Nat) :
    pyStrip (s ++ List.replicate k ' ') = pyStrip s := by
  unfold pyStrip
  rw [rstrip_append_spaces]

lemma pyStrip_ljust (s : Str) (w : Nat) : pyStrip (ljust s w) = pyStrip s :=
  pyStrip_append_spaces s (w - s.length)

lemma ljust_length {s : Str} {w : Nat} (h : s.length ≤ w) : (ljust s w).length = w := by
  simp [ljust]
  omega

lemma parseDigits_append_singleton (a : Str) (c : Char) :
    parseDigits (a ++ [c]) = parseDigits a * 10 + (c.toNat - 48) := by
  unfold parseDigits
  rw [List.foldl_append]
  rfl

lemma parseDigits_replicate_zero_append (k : Nat) (s : Str) :
    parseDigits (List.replicate k '0' ++ s) = parseDigits s := by
  unfold parseDigits
  rw [List.foldl_append]
  congr 1
  induction k with
  | zero => rfl
  | succ m ih => rw [List.replicate_succ, List.foldl_cons]; exact ih

lemma digitChar_isDigit {d : Nat} (h : d < 10) : (Nat.digitChar d).isDigit = true := by
  interval_cases d <;> decide

lemma digitChar_toNat {d : Nat} (h : d < 10) : (Nat.digitChar d).toNat - 48 = d := by
  interval_cases d <;> decide

lemma natToDigitsAux_zero (fuel : Nat) : natToDigitsAux fuel 0 = [] := by
  cases fuel <;> simp [natToDigitsAux]

lemma natToDigitsAux_spec :
    ∀ fuel n, n ≤ fuel → n ≠ 0 →
      parseDigits (natToDigitsAux fuel n) = n ∧
      natToDigitsAux fuel n ≠ [] ∧
      (natToDigitsAux fuel n).all Char.isDigit = true := by
  intro fuel
  induction fuel with
  | zero => intro n hle hne; omega
  | succ m ih =>
    intro n hle hne
    rw [natToDigitsAux, if_neg hne]
    by_cases hq : n / 10 = 0
    · rw [hq, natToDigitsAux_zero, List.nil_append]
      have hmod : n % 10 = n := by omega
      refine ⟨?_, by simp, by simp [digitChar_isDigit (Nat.mod_lt n (by norm_num))]⟩
      show parseDigits [Nat.digitChar (n % 10)] = n
      rw [show parseDigits [Nat.digitChar (n % 10)] =
        0 * 10 + ((Nat.digitChar (n % 10)).toNat - 48) from rfl]
      rw [digitChar_toNat (Nat.mod_lt n (by norm_num)), hmod]
      omega
    · have hdiv : n / 10 < n := Nat.div_lt_self (by omega) (by norm_num)
      obtain ⟨hval, hnil, hdig⟩ := ih (n / 10) (by omega) hq
      refine ⟨?_, by simp, ?_⟩
      · rw [parseDigits_append_singleton, hval,
          digitChar_toNat (Nat.mod_lt n (by norm_num))]
        omega
      · rw [List.all_append, hdig, Bool.true_and]
        simp [digitChar_isDigit (Nat.mod_lt n (by norm_num))]

lemma natToDigitsAux_length :
    ∀ fuel n k, n ≤ fuel → n < 10 ^ k → (natToDigitsAux fuel n).length ≤ k := by
  intro fuel
  induction fuel with
  | zero => intro n k hle hlt; interval_cases n; simp [natToDigitsAux]
  | succ m ih =>
    intro n k hle hlt
    rw [natToDigitsAux]
    by_cases hne : n = 0
    · rw [if_pos hne]
      simp
    · rw [if_neg hne]
      have hk : k ≠ 0 := by
        intro hk0
        rw [hk0, pow_zero] at hlt
        omega
      obtain ⟨k', rfl⟩ := Nat.exists_eq_succ_of_ne_zero hk
      have hdiv : n / 10 < n := Nat.div_lt_self (by omega) (by norm_num)
      have hdivlt : n / 10 < 10 ^ k' := by
        rw [Nat.div_lt_iff_lt_mul (by norm_num)]
        calc n < 10 ^ (k' + 1) := hlt
        _ = 10 ^ k' * 10 := by ring
      have := ih (n / 10) k' (by omega) hdivlt
      rw [List.length_append]
      simp only [List.length_singleton]
      omega

lemma parseDigits_natToStr (n : Nat) : parseDigits (natToStr n) = n := by
  unfold natToStr
  split
  · subst n; decide
  · exact (natToDigitsAux_spec n n le_rfl (by assumption)).1

lemma natToStr_length_le {n : Nat} (h : n ≤ 9999) : (natToStr n).length ≤ 4 := by
  unfold natToStr
  split
  · simp
  · exact natToDigitsAux_length n n 4 le_rfl (by omega)

lemma natToStr_all_isDigit (n : Nat) : (natToStr n).all Char.isDigit = true := by
  unfold natToStr
  split
  · decide
  · exact (natToDigitsAux_spec n n le_rfl (by assumption)).2.2

lemma natToStr_ne_nil (n : Nat) : natToStr n ≠ [] := by
  unfold natToStr
  split
  · simp
  · exact (natToDigitsAux_spec n n le_rfl (by assumption)).2.1

lemma zfill4_length {s : Str} (h : s.length ≤ 4) : (zfill 4 s).length = 4 := by
  simp [zfill]
  omega

lemma zfill4_all_isDigit {s : Str} (h : s.all Char.isDigit = true) :
    (zfill 4 s).all Char.isDigit = true := by
  rw [zfill, List.all_append, h, Bool.and_true, List.all_eq_true]
  intro c hc
  have := List.eq_of_mem_replicate hc
  subst this
  rfl

lemma parseDigits_zfill4_natToStr (n : Nat) :
    parseDigits (zfill 4 (natToStr n)) = n := by
  rw [zfill, parseDigits_replicate_zero_append, parseDigits_natToStr]

lemma char_isDigit_bounds {c : Char} (h : c.isDigit = true) :
    48 ≤ c.toNat ∧ c.toNat ≤ 57 := by
  unfold Char.isDigit at h
  rw [Bool.and_eq_true] at h
  obtain ⟨h1, h2⟩ := h
  rw [decide_eq_true_eq] at h1 h2
  unfold Char.toNat
  exact ⟨h1, h2⟩

lemma pyDecimalVal_of_isDigit {c : Char} (h : c.isDigit = true) :
    pyDecimalVal c = some (c.toNat - 48) := by
  obtain ⟨h1, h2⟩ := char_isDigit_bounds h
  unfold pyDecimalVal decimalRunStarts
  rw [List.find?_cons_of_pos _ (by rw [decide_eq_true_eq]; omega)]
  rfl

lemma pyIsDecimal_of_isDigit {c : Char} (h : c.isDigit = true) :
    pyIsDecimal c = true := by
  unfold pyIsDecimal
  rw [pyDecimalVal_of_isDigit h]
  rfl

lemma pyIsdigit_of_isDigit {c : Char} (h : c.isDigit = true) :
    pyIsdigit c = true := by
  unfold pyIsdigit
  rw [pyIsDecimal_of_isDigit h]
  rfl

lemma all_pyIsdigit_of_all_isDigit {s : Str} (h : s.all Char.isDigit = true) :
    s.all pyIsdigit = true := by
  rw [List.all_eq_true] at h ⊢
  exact fun c hc => pyIsdigit_of_isDigit (h c hc)

lemma all_pyIsDecimal_of_all_isDigit {s : Str} (h : s.all Char.isDigit = true) :
    s.all pyIsDecimal = true := by
  rw [List.all_eq_true] at h ⊢
  exact fun c hc => pyIsDecimal_of_isDigit (h c hc)

lemma decimalValue_foldl_eq {s : Str} (h : ∀ c ∈ s, c.isDigit = true) :
    ∀ init : Nat,
      s.foldl (fun a c => a * 10 + (pyDecimalVal c).getD 0) init =
      s.foldl (fun a c => a * 10 + (c.toNat - 48)) init := by
  induction s with
  | nil => intro init; rfl
  | cons c t ih =>
    intro init
    rw [List.foldl_cons, List.foldl_cons, pyDecimalVal_of_isDigit (h c (by simp))]
    exact ih (fun x hx => h x (by simp [hx])) _

lemma pyIntDigits_of_all_isDigit {s : Str} (h : s.all Char.isDigit = true) :
    pyIntDigits s = some (parseDigits s) := by
  unfold pyIntDigits
  rw [if_pos (all_pyIsDecimal_of_all_isDigit h)]
  unfold decimalValue parseDigits
  rw [decimalValue_foldl_eq (List.all_eq_true.mp h) 0]

lemma parse_message_eq_ok {message : Str} {n : Nat}
    (h1 : ¬ message.length < 22)
    (h2 : message[16]? = some '|')
    (h3 : message[21]? = some '|')
    (h4 : ((message.drop 17).take 4).all pyIsdigit = true)
    (h5 : pyIntDigits ((message.drop 17).take 4) = some n)
    (h6 : ((message.drop 22).take n).length = n) :
    parse_message message =
      ParseResult.ok (pyStrip (message.take 16)) ((message.drop 22).take n) := by
  unfold parse_message
  simp only [CMD_FIELD_LENGTH, LENGTH_FIELD_LENGTH, MSG_HEADER_LENGTH,
    DELIMITER, show (16 : Nat) + 1 = 17 from rfl,
    show (16 : Nat) + 1 + 4 = 21 from rfl,
    show (16 : Nat) + 1 + 4 + 1 = 22 from rfl]
  rw [if_neg h1, if_neg (by simp [h2]), if_neg (by simp [h3]),
    if_neg (by simp [h4]), h5]
  dsimp only
  rw [if_neg (by simp [h6])]

lemma build_message_eq {cmd data : Str} (hc : cmd.length ≤ 16) (hd : data.length ≤ 9999)
    (h1 : DELIMITER ∉ cmd) (h2 : DATA_DELIMITER ∉ cmd) :
    build_message cmd data =
      some (ljust cmd 16 ++ '|' :: (zfill 4 (natToStr data.length) ++ '|' :: data)) := by
  have hA : ¬ (CMD_FIELD_LENGTH < cmd.length ∨ MAX_DATA_LENGTH < data.length) := by
    simp only [CMD_FIELD_LENGTH, MAX_DATA_LENGTH, LENGTH_FIELD_LENGTH]
    norm_num
    omega
  have hB : ¬ (DELIMITER ∈ cmd ∨ DATA_DELIMITER ∈ cmd) := by
    rintro (h | h)
    · exact h1 h
    · exact h2 h
  unfold build_message
  rw [if_neg hA, if_neg hB]
  rfl

lemma parse_build (cmd data : Str) (hc : cmd.length ≤ 16) (hd : data.length ≤ 9999) :
    parse_message (ljust cmd 16 ++ '|' :: (zfill 4 (natToStr data.length) ++ '|' :: data)) =
      ParseResult.ok (pyStrip cmd) data := by
  set P := ljust cmd 16 with hPdef
  set L := zfill 4 (natToStr data.length) with hLdef
  have hPlen : P.length = 16 := ljust_length hc
  have hLlen : L.length = 4 := zfill4_length (natToStr_length_le hd)
  set msg := P ++ '|' :: (L ++ '|' :: data) with hmsg
  have hshape17 : msg = (P ++ ['|']) ++ (L ++ '|' :: data) := by simp [hmsg]
  have hshape22 : msg = ((P ++ ['|']) ++ (L ++ ['|'])) ++ data := by simp [hmsg]
  have hmsglen : msg.length = 22 + data.length := by
    rw [hmsg]
    simp [hPlen, hLlen]
    omega
  have hdrop17 : msg.drop 17 = L ++ '|' :: data := by
    rw [hshape17, List.drop_left' (by simp [hPlen])]
  have hdrop22 : msg.drop 22 = data := by
    rw [hshape22, List.drop_left' (by simp [hPlen, hLlen])]
  have htake16 : msg.take 16 = P := by
    rw [hmsg, List.take_left' hPlen]
  have htake4 : (msg.drop 17).take 4 = L := by
    rw [hdrop17, List.take_left' hLlen]
  have hget16 : msg[16]? = some '|' := by
    rw [hmsg, List.getElem?_append_right (le_of_eq hPlen), hPlen]
    simp
  have hget21 : msg[21]? = some '|' := by
    have h0 : (msg.drop 17)[4]? = msg[21]? := by
      rw [List.getElem?_drop]
    rw [← h0, hdrop17, List.getElem?_append_right (le_of_eq hLlen), hLlen]
    simp
  have hdig : ((msg.drop 17).take 4).all Char.isDigit = true := by
    rw [htake4, hLdef]
    exact zfill4_all_isDigit (natToStr_all_isDigit _)
  have hint : pyIntDigits ((msg.drop 17).take 4) = some data.length := by
    rw [pyIntDigits_of_all_isDigit hdig, htake4, hLdef, parseDigits_zfill4_natToStr]
  rw [parse_message_eq_ok (by omega) hget16 hget21
    (all_pyIsdigit_of_all_isDigit hdig) hint
    (by rw [hdrop22, List.take_length])]
  rw [hdrop22, List.take_length, htake16, hPdef, pyStrip_ljust]

lemma natToStr_head_isDigit (n : Nat) :
    ∃ c t, natToStr n = c :: t ∧ c.isDigit = true := by
  cases h : natToStr n with
  | nil => exact absurd h (natToStr_ne_nil n)
  | cons c t =>
    refine ⟨c, t, rfl, ?_⟩
    have := natToStr_all_isDigit n
    rw [h, List.all_cons, Bool.and_eq_true] at this
    exact this.1

lemma pyInt_natToStr (n : Nat) : pyInt (natToStr n) = some (n : Int) := by
  obtain ⟨c, t, hct, hc⟩ := natToStr_head_isDigit n
  have hall : (c :: t).all Char.isDigit = true := hct ▸ natToStr_all_isDigit n
  have hcm : c ≠ '-' := by
    intro h
    rw [h] at hc
    exact absurd hc (by decide)
  have hcp : c ≠ '+' := by
    intro h
    rw [h] at hc
    exact absurd hc (by decide)
  rw [hct]
  simp only [pyInt, if_neg hcm, if_neg hcp, if_pos hall]
  rw [← hct, parseDigits_natToStr]

lemma pyInt_neg_cons (rest : Str) :
    pyInt ('-' :: rest) =
      if rest ≠ [] ∧ rest.all Char.isDigit then some (-(parseDigits rest : Int))
      else none := by
  simp [pyInt]

lemma pyInt_intToStr (n : Int) : pyInt (intToStr n) = some n := by
  unfold intToStr
  split
  · rename_i hneg
    rw [pyInt_neg_cons, if_pos ⟨natToStr_ne_nil _, natToStr_all_isDigit _⟩,
      parseDigits_natToStr]
    congr 1
    omega
  · rename_i hpos
    rw [pyInt_natToStr]
    congr 1
    omega

lemma not_mem_natToStr_of_not_digit {c : Char} (h : ¬ c.isDigit = true) (n : Nat) :
    c ∉ natToStr n := by
  intro hm
  have hall := natToStr_all_isDigit n
  rw [List.all_eq_true] at hall
  exact h (hall c hm)

lemma hash_not_mem_intToStr (n : Int) : '#' ∉ intToStr n := by
  unfold intToStr
  split
  · intro hm
    rcases List.mem_cons.mp hm with h | h
    · exact absurd h (by decide)
    · exact not_mem_natToStr_of_not_digit (by decide) _ h
  · exact not_mem_natToStr_of_not_digit (by decide) _

lemma splitOnChar_cons (sep c : Char) (rest : Str) :
    splitOnChar sep (c :: rest) =
      match splitOnChar sep rest with
      | [] => [[]]
      | h :: t => if c = sep then [] :: h :: t else (c :: h) :: t := rfl

lemma splitOnChar_ne_nil (sep : Char) (s : Str) : splitOnChar sep s ≠ [] := by
  cases s with
  | nil => simp [splitOnChar]
  | cons c cs =>
    rw [splitOnChar_cons]
    cases h : splitOnChar sep cs with
    | nil => simp
    | cons a b =>
      dsimp only []
      split <;> simp

lemma splitOnChar_of_not_mem {sep : Char} {s : Str} (h : sep ∉ s) :
    splitOnChar sep s = [s] := by
  induction s with
  | nil => rfl
  | cons c cs ih =>
    have hc : ¬ c = sep := by
      intro hcc
      exact h (by simp [hcc])
    have ih' := ih (fun hm => h (by simp [hm]))
    rw [splitOnChar_cons, ih']
    simp [hc]

lemma splitOnChar_append {sep : Char} {a : Str} (b : Str) (ha : sep ∉ a) :
    splitOnChar sep (a ++ sep :: b) = a :: splitOnChar sep b := by
  induction a with
  | nil =>
    rw [List.nil_append, splitOnChar_cons]
    cases h : splitOnChar sep b with
    | nil => exact absurd h (splitOnChar_ne_nil _ _)
    | cons x y => simp
  | cons c cs ih =>
    have hc : ¬ c = sep := by
      intro hcc
      exact ha (by simp [hcc])
    have ih' := ih (fun hm => ha (by simp [hm]))
    rw [List.cons_append, splitOnChar_cons, ih']
    simp [hc]

end Chatlib

namespace Server

lemma parse_answer_data_pair (q a : Int) :
    parse_answer_data (Chatlib.intToStr q ++ '#' :: Chatlib.intToStr a) = some (q, a) := by
  unfold parse_answer_data
  simp only [Chatlib.DATA_DELIMITER]
  rw [Chatlib.splitOnChar_append _ (Chatlib.hash_not_mem_intToStr q),
    Chatlib.splitOnChar_of_not_mem (Chatlib.hash_not_mem_intToStr a)]
  simp [Chatlib.pyInt_intToStr]

lemma dictGet_cons {κ α : Type} [DecidableEq κ] (k' : κ) (v : α) (t : List (κ × α))
    (k : κ) : dictGet ((k', v) :: t) k = if k' = k then some v else dictGet t k := rfl

lemma dictUpdate_cons {κ α : Type} [DecidableEq κ] (k' : κ) (v : α) (t : List (κ × α))
    (k : κ) (f : α → α) :
    dictUpdate ((k', v) :: t) k f =
      (if k' = k then (k', f v) else (k', v)) :: dictUpdate t k f := rfl

lemma dictGet_dictUpdate_self {κ α : Type} [DecidableEq κ] (l : List (κ × α)) (k : κ)
    (f : α → α) : dictGet (dictUpdate l k f) k = (dictGet l k).map f := by
  induction l with
  | nil => rfl
  | cons p t ih =>
    obtain ⟨k', v⟩ := p
    rw [dictUpdate_cons]
    by_cases h : k' = k
    · rw [if_pos h, dictGet_cons, dictGet_cons, if_pos h, if_pos h]
      rfl
    · rw [if_neg h, dictGet_cons, dictGet_cons, if_neg h, if_neg h]
      exact ih

lemma dictGet_dictUpdate_isSome {κ α : Type} [DecidableEq κ] (l : List (κ × α))
    (k k' : κ) (f : α → α) :
    (dictGet (dictUpdate l k f) k').isSome = (dictGet l k').isSome := by
  induction l with
  | nil => rfl
  | cons p t ih =>
    obtain ⟨k₀, v⟩ := p
    rw [dictUpdate_cons]
    by_cases h : k₀ = k
    · rw [if_pos h, dictGet_cons, dictGet_cons]
      by_cases h' : k₀ = k'
      · rw [if_pos h', if_pos h']
        rfl
      · rw [if_neg h', if_neg h']
        exact ih
    · rw [if_neg h, dictGet_cons, dictGet_cons]
      by_cases h' : k₀ = k'
      · rw [if_pos h', if_pos h']
      · rw [if_neg h', if_neg h']
        exact ih

lemma mem_dictUpdate {κ α : Type} [DecidableEq κ] {l : List (κ × α)} {k : κ}
    {f : α → α} {p : κ × α} (h : p ∈ dictUpdate l k f) :
    ∃ q ∈ l, p = (q.1, f q.2) ∨ p = q := by
  induction l with
  | nil => exact absurd h (by simp [dictUpdate])
  | cons q₀ t ih =>
    obtain ⟨k₀, v⟩ := q₀
    rw [dictUpdate_cons, List.mem_cons] at h
    rcases h with h | h
    · refine ⟨(k₀, v), by simp, ?_⟩
      by_cases hk : k₀ = k
      · rw [if_pos hk] at h
        left
        exact h
      · rw [if_neg hk] at h
        right
        exact h
    · obtain ⟨q, hq, hpq⟩ := ih h
      exact ⟨q, by simp [hq], hpq⟩

lemma mem_dictSet {κ α : Type} [DecidableEq κ] {l : List (κ × α)} {k : κ} {v : α}
    {p : κ × α} (h : p ∈ dictSet l k v) : p.2 = v ∨ p ∈ l := by
  unfold dictSet at h
  split at h
  · obtain ⟨q, hq, hpq⟩ := mem_dictUpdate h
    rcases hpq with hpq | hpq
    · left
      rw [hpq]
    · right
      rw [hpq]
      exact hq
  · rw [List.mem_append] at h
    rcases h with h | h
    · right
      exact h
    · left
      simp at h
      rw [h]

lemma mem_dictDel {κ α : Type} [DecidableEq κ] {l : List (κ × α)} {k : κ}
    {p : κ × α} (h : p ∈ dictDel l k) : p ∈ l :=
  List.mem_of_mem_filter h

end Server

/-- Claim C1 counterexample: for the command `" A"` (leading space, within all
size limits, no delimiters) `build_message` succeeds, but `parse_message` on
its output does not return the command with only trailing padding trimmed:
Python's `strip()` also removes the leading space. -/
theorem C1_cex_leading_space_not_preserved :
    (Chatlib.build_message [' ', 'A'] []).isSome = true ∧
    (Chatlib.build_message [' ', 'A'] []).map Chatlib.parse_message ≠
      some (Chatlib.ParseResult.ok [' ', 'A'] []) := by
  decide

/-- Claim C1 (amended): for every command of length at most 16 containing
neither `'|'` nor `'#'` and every data of length at most 9999,
`build_message` succeeds and `parse_message` of its result returns the
command with leading and trailing whitespace stripped, paired with the data
unchanged. -/
theorem C1_roundtrip_returns_stripped_command (cmd data : Chatlib.Str)
    (hc : cmd.length ≤ 16) (hd : data.length ≤ 9999)
    (h1 : '|' ∉ cmd) (h2 : '#' ∉ cmd) :
    (Chatlib.build_message cmd data).map Chatlib.parse_message =
      some (Chatlib.ParseResult.ok (Chatlib.pyStrip cmd) data) := by
  rw [Chatlib.build_message_eq hc hd h1 h2, Option.map_some',
    Chatlib.parse_build cmd data hc hd]

/-- Witness for C1's theorem at the repository's own example command and
data. -/
theorem C1_roundtrip_witness :
    (Chatlib.build_message (Server.strL "LOGIN") (Server.strL "aaaa#bbbb")).map
        Chatlib.parse_message =
      some (Chatlib.ParseResult.ok (Chatlib.pyStrip (Server.strL "LOGIN"))
        (Server.strL "aaaa#bbbb")) :=
  C1_roundtrip_returns_stripped_command _ _ (by decide) (by decide) (by decide)
    (by decide)

/-- Claim C5: `build_message` returns the error sentinel exactly when the
command exceeds 16 characters, the data exceeds 9999 characters, or the
command contains `'|'` or `'#'`. -/
theorem C5_build_message_none_iff (cmd data : Chatlib.Str) :
    Chatlib.build_message cmd data = none ↔
      16 < cmd.length ∨ 9999 < data.length ∨ '|' ∈ cmd ∨ '#' ∈ cmd := by
  unfold Chatlib.build_message
  simp only [Chatlib.CMD_FIELD_LENGTH, Chatlib.MAX_DATA_LENGTH,
    Chatlib.LENGTH_FIELD_LENGTH, Chatlib.DELIMITER, Chatlib.DATA_DELIMITER,
    show (10 : Nat) ^ 4 - 1 = 9999 from rfl]
  split_ifs with h1 h2
  · exact iff_of_true rfl (by tauto)
  · exact iff_of_true rfl (by tauto)
  · refine iff_of_false (by simp) ?_
    push_neg at h1 h2 ⊢
    exact ⟨h1.1, h1.2, h2.1, h2.2⟩

/-- Claim C6 counterexample: a frame whose length field is the four
Arabic-Indic digits U+0660 — not ASCII digits — is parsed successfully
(Python's `str.isdigit` and `int()` accept non-ASCII decimal digits), and a
frame whose length field is four superscript-two characters U+00B2 makes
`parse_message` raise the uncaught `ValueError` of `int()` instead of
returning the error sentinel. -/
theorem C6_cex_non_ascii_digit_length_field :
    Chatlib.parse_message (Server.strL "LOGIN           " ++
        '|' :: '٠' :: '٠' :: '٠' :: '٠' :: ['|']) =
      Chatlib.ParseResult.ok (Server.strL "LOGIN") [] ∧
    ¬ (['٠', '٠', '٠', '٠'].all Char.isDigit = true) ∧
    Chatlib.parse_message (Server.strL "LOGIN           " ++
        '|' :: '²' :: '²' :: '²' :: '²' :: ['|']) =
      Chatlib.ParseResult.raised := by
  decide

/-- Claim C6 (amended): `parse_message` returns the error sentinel exactly
when the input is shorter than 22 characters, the character at offset 16 or
21 is not `'|'`, the four characters at offsets 17–20 are not all accepted by
`str.isdigit` (which admits non-ASCII decimal digits and digit-like
characters), or the field is made of decimal digits whose value exceeds the
number of characters remaining after the 22-character header; when the field
passes `isdigit` but contains a digit-like character `int()` rejects, the
function raises an uncaught `ValueError` instead; otherwise it succeeds. -/
theorem C6_parse_message_sentinel_characterization (message : Chatlib.Str) :
    (Chatlib.parse_message message = Chatlib.ParseResult.sentinel ↔
      message.length < 22 ∨ message[16]? ≠ some '|' ∨ message[21]? ≠ some '|' ∨
      ¬ ((message.drop 17).take 4).all Chatlib.pyIsdigit = true ∨
      (((message.drop 17).take 4).all Chatlib.pyIsDecimal = true ∧
        message.length - 22 < Chatlib.decimalValue ((message.drop 17).take 4))) ∧
    (Chatlib.parse_message message = Chatlib.ParseResult.raised ↔
      ¬ message.length < 22 ∧ message[16]? = some '|' ∧ message[21]? = some '|' ∧
      ((message.drop 17).take 4).all Chatlib.pyIsdigit = true ∧
      ¬ ((message.drop 17).take 4).all Chatlib.pyIsDecimal = true) := by
  unfold Chatlib.parse_message
  simp only [Chatlib.CMD_FIELD_LENGTH, Chatlib.LENGTH_FIELD_LENGTH,
    Chatlib.MSG_HEADER_LENGTH, Chatlib.DELIMITER,
    show (16 : Nat) + 1 = 17 from rfl, show (16 : Nat) + 1 + 4 = 21 from rfl,
    show (16 : Nat) + 1 + 4 + 1 = 22 from rfl]
  by_cases h1 : message.length < 22
  · rw [if_pos h1]
    exact ⟨iff_of_true rfl (Or.inl h1), iff_of_false (by decide) (fun hr => hr.1 h1)⟩
  rw [if_neg h1]
  by_cases h2 : message[16]? ≠ some '|'
  · rw [if_pos h2]
    exact ⟨iff_of_true rfl (Or.inr (Or.inl h2)),
      iff_of_false (by decide) (fun hr => h2 hr.2.1)⟩
  rw [if_neg h2]
  by_cases h3 : message[21]? ≠ some '|'
  · rw [if_pos h3]
    exact ⟨iff_of_true rfl (Or.inr (Or.inr (Or.inl h3))),
      iff_of_false (by decide) (fun hr => h3 hr.2.2.1)⟩
  rw [if_neg h3]
  by_cases h4 : ¬ ((message.drop 17).take 4).all Chatlib.pyIsdigit = true
  · rw [if_pos h4]
    exact ⟨iff_of_true rfl (Or.inr (Or.inr (Or.inr (Or.inl h4)))),
      iff_of_false (by decide) (fun hr => h4 hr.2.2.2.1)⟩
  rw [if_neg h4]
  cases hint : Chatlib.pyIntDigits ((message.drop 17).take 4) with
  | none =>
    dsimp only
    have hnotdec : ¬ ((message.drop 17).take 4).all Chatlib.pyIsDecimal = true := by
      intro hdec
      unfold Chatlib.pyIntDigits at hint
      rw [if_pos hdec] at hint
      exact absurd hint (by simp)
    constructor
    · refine iff_of_false (by decide) ?_
      rintro (hS | hS | hS | hS | ⟨hdec, _⟩)
      · exact h1 hS
      · exact h2 hS
      · exact h3 hS
      · exact h4 hS
      · exact hnotdec hdec
    · exact iff_of_true rfl
        ⟨h1, not_not.mp h2, not_not.mp h3, not_not.mp h4, hnotdec⟩
  | some n =>
    dsimp only
    have hdec : ((message.drop 17).take 4).all Chatlib.pyIsDecimal = true := by
      by_contra hd
      unfold Chatlib.pyIntDigits at hint
      rw [if_neg hd] at hint
      exact absurd hint (by simp)
    have hn : n = Chatlib.decimalValue ((message.drop 17).take 4) := by
      unfold Chatlib.pyIntDigits at hint
      rw [if_pos hdec] at hint
      exact (Option.some.inj hint).symm
    by_cases h5 : ((message.drop 22).take n).length ≠ n
    · rw [if_pos h5]
      rw [List.length_take, List.length_drop] at h5
      constructor
      · refine iff_of_true rfl
          (Or.inr (Or.inr (Or.inr (Or.inr ⟨hdec, ?_⟩))))
        rw [← hn]
        omega
      · exact iff_of_false (by decide) (fun hr => hr.2.2.2.2 hdec)
    · rw [if_neg h5]
      rw [List.length_take, List.length_drop] at h5
      constructor
      · refine iff_of_false (by simp) ?_
        rintro (hS | hS | hS | hS | ⟨_, hlen⟩)
        · exact h1 hS
        · exact h2 hS
        · exact h3 hS
        · exact h4 hS
        · rw [← hn] at hlen
          omega
      · exact iff_of_false (by simp) (fun hr => hr.2.2.2.2 hdec)

namespace Server

lemma getD_cons_mem {α : Type} (a : α) (l : List α) (n : Nat) :
    (a :: l).getD n a ∈ a :: l := by
  rw [List.getD_eq_getElem?_getD]
  cases h : (a :: l)[n]? with
  | none => simp
  | some x =>
    have := List.getElem?_mem h
    simp [this]

lemma create_random_question_picked {st : ServerState} {username : Username}
    {k : Nat} {qstr : Chatlib.Str} {q_num : Int} {u : UserData}
    (hu : dictGet st.users username = some u)
    (h : create_random_question st username k = .picked qstr q_num) :
    (dictGet st.questions q_num).isSome = true ∧ q_num ∉ u.questions_asked ∧
      ∃ rest, qstr = Chatlib.intToStr q_num ++ '#' :: rest := by
  unfold create_random_question at h
  by_cases hq : st.questions = []
  · rw [if_pos hq] at h
    exact absurd h (by simp)
  rw [if_neg hq, hu] at h
  dsimp only at h
  cases hf : (st.questions.map Prod.fst).filter (fun q => decide (q ∉ u.questions_asked)) with
  | nil =>
    rw [hf] at h
    exact absurd h (by simp)
  | cons q₀ rest' =>
    rw [hf] at h
    dsimp only at h
    cases hg : dictGet st.questions ((q₀ :: rest').getD (k % (q₀ :: rest').length) q₀) with
    | none =>
      rw [hg] at h
      exact absurd h (by simp)
    | some qd =>
      rw [hg] at h
      simp only [PickResult.picked.injEq] at h
      obtain ⟨hqs, hqn⟩ := h
      subst hqn
      have hmem : (q₀ :: rest').getD (k % (q₀ :: rest').length) q₀ ∈ q₀ :: rest' :=
        getD_cons_mem q₀ rest' _
      have hmem' : (q₀ :: rest').getD (k % (q₀ :: rest').length) q₀ ∈
          (st.questions.map Prod.fst).filter (fun q => decide (q ∉ u.questions_asked)) := by
        rw [hf]
        exact hmem
      rw [List.mem_filter] at hmem'
      refine ⟨by rw [hg]; rfl, by simpa using hmem'.2, qd.question ++ '#' :: List.intercalate ['#'] qd.answers, hqs.symm⟩

end Server

/-- Claim C2 counterexample: with a one-question bank already fully contained
in the user's asked set, `handle_question_message` replies with the generic
`ERROR` command, which is not the dedicated `NO_QUESTIONS` command; the
source's own docstring says it "sends an error message instead". -/
theorem C2_cex_exhausted_bank_gets_generic_error :
    Server.handle_question_message
        ⟨[(['t'], ⟨['t'], 0, [1]⟩)], [(1, ⟨['q'], [['a'], ['b'], ['c'], ['d']], 1⟩)], []⟩
        ['t'] 0 =
      some (⟨[(['t'], ⟨['t'], 0, [1]⟩)], [(1, ⟨['q'], [['a'], ['b'], ['c'], ['d']], 1⟩)], []⟩,
        (Server.error_msg, Server.strL "No more questions available"), false) ∧
    Server.error_msg ≠ Server.noquestions_msg := by
  decide

/-- Claim C2 (amended): for every authenticated user whose asked set covers
every question id in the bank (or when the bank is empty), GET_QUESTION is
answered with the generic `ERROR` command carrying "No more questions
available" — not with the dedicated `NO_QUESTIONS` command — the state is
unchanged, and therefore every subsequent GET_QUESTION on an unchanged bank
behaves identically (the conclusion holds for every choice oracle `k`). -/
theorem C2_exhausted_bank_always_error_response (st : Server.ServerState)
    (username : Server.Username) (u : Server.UserData) (k : Nat)
    (hu : Server.dictGet st.users username = some u)
    (hall : ∀ p ∈ st.questions, p.1 ∈ u.questions_asked) :
    Server.handle_question_message st username k =
      some (st, (Server.error_msg, Server.strL "No more questions available"), false) := by
  unfold Server.handle_question_message Server.create_random_question
  by_cases hq : st.questions = []
  · rw [if_pos hq]
  · rw [if_neg hq, hu]
    dsimp only
    have hfilter : (st.questions.map Prod.fst).filter
        (fun q => decide (q ∉ u.questions_asked)) = [] := by
      rw [List.filter_eq_nil_iff]
      intro a ha
      rw [List.mem_map] at ha
      obtain ⟨p, hp, rfl⟩ := ha
      simp [hall p hp]
    rw [hfilter]

/-- Witness for C2's amended theorem: a concrete user who has been asked the
only question in the bank. -/
theorem C2_exhausted_bank_witness :
    Server.handle_question_message
        ⟨[(['u'], ⟨['p'], 3, [1, 2]⟩)], [(2, ⟨['q'], [['a'], ['b'], ['c'], ['d']], 4⟩)], []⟩
        ['u'] 7 =
      some (⟨[(['u'], ⟨['p'], 3, [1, 2]⟩)], [(2, ⟨['q'], [['a'], ['b'], ['c'], ['d']], 4⟩)], []⟩,
        (Server.error_msg, Server.strL "No more questions available"), false) :=
  C2_exhausted_bank_always_error_response _ _ ⟨['p'], 3, [1, 2]⟩ 7 (by decide)
    (by decide)

namespace Server

lemma handle_answer_correct {st : ServerState} {username : Username} {u : UserData}
    {qid : Int} {q : Question}
    (hu : dictGet st.users username = some u)
    (hq : dictGet st.questions qid = some q) :
    handle_answer_message st username
        (Chatlib.intToStr qid ++ '#' :: Chatlib.intToStr q.correct) =
      some ({st with users := dictUpdate st.users username addReward},
        (correct_msg, ['5']), false) := by
  unfold handle_answer_message
  rw [parse_answer_data_pair]
  dsimp only
  rw [hq]
  dsimp only
  rw [if_pos rfl, hu]

lemma pyIndex_answers_some {q : Question} (hlen : q.answers.length = 4)
    (h1 : 1 ≤ q.correct) (h4 : q.correct ≤ 4) :
    ∃ t, pyIndex q.answers (q.correct - 1) = some t := by
  unfold pyIndex
  rw [if_neg (by omega : ¬ q.correct - 1 < 0)]
  have hidx : (q.correct - 1).toNat < q.answers.length := by
    rw [hlen]
    omega
  exact ⟨q.answers[(q.correct - 1).toNat], List.getElem?_eq_getElem hidx⟩

lemma handle_answer_wrong {st : ServerState} {username : Username} {qid : Int}
    {q : Question} {choice : Int} {t : Chatlib.Str}
    (hq : dictGet st.questions qid = some q)
    (hne : ¬ choice = q.correct)
    (ht : pyIndex q.answers (q.correct - 1) = some t) :
    handle_answer_message st username
        (Chatlib.intToStr qid ++ '#' :: Chatlib.intToStr choice) =
      some (st, (wrong_msg, Chatlib.intToStr q.correct ++ ',' :: t), false) := by
  unfold handle_answer_message
  rw [parse_answer_data_pair]
  dsimp only
  rw [hq]
  dsimp only
  rw [if_neg hne, ht]

end Server

/-- Claim C3: for an authenticated user and a question id in the bank (with
the bank entry well-formed, as the web loader guarantees: four answers and a
correct index in [1,4]), SEND_ANSWER with data `id#choice` where the choice
equals the stored correct index adds exactly 5 to the user's score and
responds CORRECT_ANSWER; any other choice in [1,4] responds WRONG_ANSWER with
the correct index and the correct answer's text, leaving the state (hence the
score) unchanged. -/
theorem C3_answer_scoring_correct_and_wrong (st : Server.ServerState)
    (username : Server.Username) (u : Server.UserData) (qid : Int)
    (q : Server.Question) (choice : Int)
    (hu : Server.dictGet st.users username = some u)
    (hq : Server.dictGet st.questions qid = some q)
    (hlen : q.answers.length = 4)
    (hc1 : 1 ≤ q.correct) (hc4 : q.correct ≤ 4)
    (hch1 : 1 ≤ choice) (hch4 : choice ≤ 4) :
    (choice = q.correct →
      ∃ st', Server.handle_answer_message st username
            (Chatlib.intToStr qid ++ '#' :: Chatlib.intToStr choice) =
          some (st', (Server.correct_msg, ['5']), false) ∧
        Server.dictGet st'.users username = some {u with score := u.score + 5}) ∧
    (¬ choice = q.correct →
      ∃ t, Server.pyIndex q.answers (q.correct - 1) = some t ∧
        Server.handle_answer_message st username
            (Chatlib.intToStr qid ++ '#' :: Chatlib.intToStr choice) =
          some (st, (Server.wrong_msg, Chatlib.intToStr q.correct ++ ',' :: t),
            false)) := by
  constructor
  · intro hch
    subst hch
    refine ⟨_, Server.handle_answer_correct hu hq, ?_⟩
    show Server.dictGet (Server.dictUpdate st.users username Server.addReward)
      username = _
    rw [Server.dictGet_dictUpdate_self, hu]
    rfl
  · intro hne
    obtain ⟨t, ht⟩ := Server.pyIndex_answers_some hlen hc1 hc4
    exact ⟨t, ht, Server.handle_answer_wrong hq hne ht⟩

/-- Witness for C3's theorem on a concrete single-question state, correct
branch. -/
theorem C3_answer_scoring_witness :
    ∃ st', Server.handle_answer_message
          ⟨[(['t'], ⟨['p'], 0, []⟩)], [(1, ⟨['q'], [['a'], ['b'], ['c'], ['d']], 2⟩)], []⟩
          ['t'] (Chatlib.intToStr 1 ++ '#' :: Chatlib.intToStr 2) =
        some (st', (Server.correct_msg, ['5']), false) ∧
      Server.dictGet st'.users ['t'] =
        some {(⟨['p'], 0, []⟩ : Server.UserData) with score := (0 : Int) + 5} :=
  (C3_answer_scoring_correct_and_wrong _ _ ⟨['p'], 0, []⟩ 1
    ⟨['q'], [['a'], ['b'], ['c'], ['d']], 2⟩ 2 (by decide) (by decide) (by decide)
    (by decide) (by decide) (by decide) (by decide)).1 rfl

/-- Claim C9: SEND_ANSWER never consults the asked-question set: a correct
answer for a bank question the user was never issued still awards 5 points,
and repeating the same correct answer awards 5 more (total 10 after two
identical submissions). -/
theorem C9_repeated_correct_answer_scores_again (st : Server.ServerState)
    (username : Server.Username) (u : Server.UserData) (qid : Int)
    (q : Server.Question)
    (hu : Server.dictGet st.users username = some u)
    (hq : Server.dictGet st.questions qid = some q)
    (hfresh : qid ∉ u.questions_asked) :
    ∃ st₁ st₂,
      Server.handle_answer_message st username
          (Chatlib.intToStr qid ++ '#' :: Chatlib.intToStr q.correct) =
        some (st₁, (Server.correct_msg, ['5']), false) ∧
      Server.dictGet st₁.users username = some {u with score := u.score + 5} ∧
      Server.handle_answer_message st₁ username
          (Chatlib.intToStr qid ++ '#' :: Chatlib.intToStr q.correct) =
        some (st₂, (Server.correct_msg, ['5']), false) ∧
      Server.dictGet st₂.users username = some {u with score := u.score + 10} := by
  obtain ⟨pw, sc, qa⟩ := u
  have h1 := Server.handle_answer_correct hu hq
  have hu₁ : Server.dictGet
      ({st with users := Server.dictUpdate st.users username Server.addReward}).users
      username = some (Server.addReward ⟨pw, sc, qa⟩) := by
    show Server.dictGet (Server.dictUpdate st.users username Server.addReward)
      username = _
    rw [Server.dictGet_dictUpdate_self, hu]
    rfl
  have h2 := Server.handle_answer_correct hu₁ (hq :
    Server.dictGet
      ({st with users := Server.dictUpdate st.users username Server.addReward}).questions
      qid = some q)
  refine ⟨_, _, h1, hu₁, h2, ?_⟩
  show Server.dictGet (Server.dictUpdate
    (Server.dictUpdate st.users username Server.addReward) username
    Server.addReward) username = _
  rw [Server.dictGet_dictUpdate_self, hu₁]
  have : sc + 5 + 5 = sc + 10 := by omega
  simp [Server.addReward, this]

/-- Witness for C9's theorem on a concrete single-question state. -/
theorem C9_repeated_correct_answer_witness :
    ∃ st₁ st₂,
      Server.handle_answer_message
          ⟨[(['t'], ⟨['p'], 0, []⟩)], [(1, ⟨['q'], [['a'], ['b'], ['c'], ['d']], 2⟩)], []⟩
          ['t'] (Chatlib.intToStr 1 ++ '#' :: Chatlib.intToStr
            (⟨['q'], [['a'], ['b'], ['c'], ['d']], (2 : Int)⟩ : Server.Question).correct) =
        some (st₁, (Server.correct_msg, ['5']), false) ∧
      Server.dictGet st₁.users ['t'] =
        some {(⟨['p'], 0, []⟩ : Server.UserData) with score := (0 : Int) + 5} ∧
      Server.handle_answer_message st₁ ['t']
          (Chatlib.intToStr 1 ++ '#' :: Chatlib.intToStr
            (⟨['q'], [['a'], ['b'], ['c'], ['d']], (2 : Int)⟩ : Server.Question).correct) =
        some (st₂, (Server.correct_msg, ['5']), false) ∧
      Server.dictGet st₂.users ['t'] =
        some {(⟨['p'], 0, []⟩ : Server.UserData) with score := (0 : Int) + 10} :=
  C9_repeated_correct_answer_scores_again _ _ ⟨['p'], 0, []⟩ 1
    ⟨['q'], [['a'], ['b'], ['c'], ['d']], 2⟩ (by decide) (by decide) (by decide)

/-- Claim C4 counterexample: a correct SEND_ANSWER mutates the score (0 to 5)
yet the handler's save flag is `false` — `handle_answer_message` contains no
call to `save_user_database`, so the score change is not persisted before the
handler returns. -/
theorem C4_cex_correct_answer_without_save :
    Server.handle_answer_message
        ⟨[(['t'], ⟨['p'], 0, []⟩)], [(1, ⟨['q'], [['a'], ['b'], ['c'], ['d']], 2⟩)], []⟩
        ['t'] (Server.strL "1#2") =
      some (⟨[(['t'], ⟨['p'], 5, []⟩)], [(1, ⟨['q'], [['a'], ['b'], ['c'], ['d']], 2⟩)], []⟩,
        (Server.correct_msg, ['5']), false) := by
  decide

/-- Claim C4 (amended): `handle_answer_message` never invokes the save-users
operation; a score change from a correct answer is only persisted by a later
question issuance, logout, or server shutdown. -/
theorem C4_answer_handler_never_saves (st : Server.ServerState)
    (username : Server.Username) (data : Chatlib.Str) (st' : Server.ServerState)
    (msg : Server.Msg) (saved : Bool)
    (h : Server.handle_answer_message st username data = some (st', msg, saved)) :
    saved = false := by
  unfold Server.handle_answer_message at h
  split at h
  · simp only [Option.some.injEq, Prod.mk.injEq] at h
    exact h.2.2.symm
  · split at h
    · simp only [Option.some.injEq, Prod.mk.injEq] at h
      exact h.2.2.symm
    · split at h
      · split at h
        · exact absurd h (by simp)
        · simp only [Option.some.injEq, Prod.mk.injEq] at h
          exact h.2.2.symm
      · split at h
        · exact absurd h (by simp)
        · simp only [Option.some.injEq, Prod.mk.injEq] at h
          exact h.2.2.symm

/-- Witness for C4's amended theorem at a concrete malformed-data call. -/
theorem C4_answer_handler_never_saves_witness : (false : Bool) = false :=
  C4_answer_handler_never_saves ⟨[], [], []⟩ ['t'] [] ⟨[], [], []⟩
    (Server.error_msg, Server.strL "Invalid answer format") false (by decide)

/-- Claim C7: SEND_ANSWER data that does not parse as exactly two `#`-joined
integers, or whose question id is not in the bank, yields an ERROR response
with the state (hence the user's record) completely unchanged. -/
theorem C7_bad_answer_data_error_state_unchanged (st : Server.ServerState)
    (username : Server.Username) (data : Chatlib.Str) (q_num ans : Int)
    (h : Server.parse_answer_data data = none ∨
      (Server.parse_answer_data data = some (q_num, ans) ∧
        Server.dictGet st.questions q_num = none)) :
    ∃ m, Server.handle_answer_message st username data =
      some (st, (Server.error_msg, m), false) := by
  rcases h with h | ⟨hp, hq⟩
  · refine ⟨Server.strL "Invalid answer format", ?_⟩
    unfold Server.handle_answer_message
    rw [h]
  · refine ⟨Server.strL "Question does not exist", ?_⟩
    unfold Server.handle_answer_message
    rw [hp]
    dsimp only
    rw [hq]

/-- Witness for C7's theorem at a concrete non-numeric data field. -/
theorem C7_bad_answer_data_witness :
    ∃ m, Server.handle_answer_message ⟨[], [], []⟩ ['t'] ['x'] =
      some (⟨[], [], []⟩, (Server.error_msg, m), false) :=
  C7_bad_answer_data_error_state_unchanged ⟨[], [], []⟩ ['t'] ['x'] 0 0
    (Or.inl (by decide))

/-- Claim C8: whenever GET_QUESTION actually returns a question (the
YOUR_QUESTION response), the issued id is in the bank, was not in the user's
asked set at the start of the call, and afterwards stands appended to that
set — so the same id can never be issued twice to the same user. -/
theorem C8_issued_question_fresh_and_recorded (st : Server.ServerState)
    (username : Server.Username) (u : Server.UserData) (k : Nat)
    (st' : Server.ServerState) (qstr : Chatlib.Str) (saved : Bool)
    (hu : Server.dictGet st.users username = some u)
    (h : Server.handle_question_message st username k =
      some (st', (Server.question_msg, qstr), saved)) :
    ∃ q_num rest,
      qstr = Chatlib.intToStr q_num ++ '#' :: rest ∧
      (Server.dictGet st.questions q_num).isSome = true ∧
      q_num ∉ u.questions_asked ∧
      Server.dictGet st'.users username =
        some {u with questions_asked := u.questions_asked ++ [q_num]} := by
  unfold Server.handle_question_message at h
  cases hcr : Server.create_random_question st username k with
  | crash =>
    rw [hcr] at h
    exact absurd h (by simp)
  | noQuestion =>
    rw [hcr] at h
    simp only [Option.some.injEq, Prod.mk.injEq] at h
    exact absurd h.2.1.1 (by decide)
  | picked qs qn =>
    rw [hcr] at h
    simp only [Option.some.injEq, Prod.mk.injEq] at h
    obtain ⟨hst, ⟨hcmd, hqs⟩, hsv⟩ := h
    obtain ⟨hsome, hnot, rest, hrest⟩ := Server.create_random_question_picked hu hcr
    refine ⟨qn, rest, ?_, hsome, hnot, ?_⟩
    · rw [← hqs, hrest]
    · rw [← hst]
      show Server.dictGet
        (Server.dictUpdate st.users username (Server.appendAsked qn)) username = _
      rw [Server.dictGet_dictUpdate_self, hu]
      rfl

/-- Witness for C8's theorem on a concrete one-question state. -/
theorem C8_issued_question_witness :
    ∃ q_num rest,
      Server.strL "1#q#a#b#c#d" = Chatlib.intToStr q_num ++ '#' :: rest ∧
      (Server.dictGet
        (⟨[(['t'], ⟨['p'], 0, []⟩)], [(1, ⟨['q'], [['a'], ['b'], ['c'], ['d']], 2⟩)], []⟩ :
          Server.ServerState).questions q_num).isSome = true ∧
      q_num ∉ (⟨['p'], 0, []⟩ : Server.UserData).questions_asked ∧
      Server.dictGet
        (⟨[(['t'], ⟨['p'], 0, [1]⟩)], [(1, ⟨['q'], [['a'], ['b'], ['c'], ['d']], 2⟩)], []⟩ :
          Server.ServerState).users ['t'] =
        some {(⟨['p'], 0, []⟩ : Server.UserData) with
          questions_asked := ([] : List Int) ++ [q_num]} :=
  C8_issued_question_fresh_and_recorded
    ⟨[(['t'], ⟨['p'], 0, []⟩)], [(1, ⟨['q'], [['a'], ['b'], ['c'], ['d']], 2⟩)], []⟩
    ['t'] ⟨['p'], 0, []⟩ 0
    ⟨[(['t'], ⟨['p'], 0, [1]⟩)], [(1, ⟨['q'], [['a'], ['b'], ['c'], ['d']], 2⟩)], []⟩
    (Server.strL "1#q#a#b#c#d") true (by decide) (by decide)

namespace Server

/-- Invariant of claim C10: every username stored as a value of the
live-session mapping is a key of the users mapping. -/
def LoggedUsersValid (st : ServerState) : Prop :=
  st.logged_users.all (fun p => (dictGet st.users p.2).isSome) = true

instance (st : ServerState) : Decidable (LoggedUsersValid st) :=
  inferInstanceAs (Decidable
    (st.logged_users.all (fun p => (dictGet st.users p.2).isSome) = true))

lemma LoggedUsersValid_iff (st : ServerState) :
    LoggedUsersValid st ↔
      ∀ p ∈ st.logged_users, (dictGet st.users p.2).isSome = true := by
  unfold LoggedUsersValid
  rw [List.all_eq_true]

lemma login_preserves {st : ServerState} {addr : Addr} {data : Chatlib.Str}
    (hinv : LoggedUsersValid st) :
    LoggedUsersValid (handle_login_message st addr data).1 := by
  unfold handle_login_message
  cases hsd : Chatlib.split_data data 2 with
  | none => exact hinv
  | some fields =>
    dsimp only
    cases fields with
    | nil => exact hinv
    | cons a as =>
      cases as with
      | nil => exact hinv
      | cons b bs =>
        cases bs with
        | cons c cs => exact hinv
        | nil =>
          dsimp only
          cases hg : dictGet st.users a with
          | none => exact hinv
          | some u =>
            dsimp only
            by_cases hpw : u.password ≠ b
            · rw [if_pos hpw]
              exact hinv
            · rw [if_neg hpw]
              rw [LoggedUsersValid_iff]
              intro p hp
              rcases mem_dictSet hp with hpa | hpl
              · show (dictGet st.users p.2).isSome = true
                rw [hpa, hg]
                rfl
              · exact (LoggedUsersValid_iff st).mp hinv p hpl

lemma logout_preserves {st : ServerState} {addr : Addr}
    (hinv : LoggedUsersValid st) :
    LoggedUsersValid (handle_logout_message st addr).1 := by
  unfold handle_logout_message
  cases hg : dictGet st.logged_users addr with
  | none => exact hinv
  | some username =>
    dsimp only
    rw [LoggedUsersValid_iff]
    intro p hp
    exact (LoggedUsersValid_iff st).mp hinv p (mem_dictDel hp)

lemma question_preserves {st : ServerState} {username : Username} {k : Nat}
    {st' : ServerState} {m : Msg} {sv : Bool} (hinv : LoggedUsersValid st)
    (h : handle_question_message st username k = some (st', m, sv)) :
    LoggedUsersValid st' := by
  unfold handle_question_message at h
  cases hcr : create_random_question st username k with
  | crash =>
    rw [hcr] at h
    exact absurd h (by simp)
  | noQuestion =>
    rw [hcr] at h
    simp only [Option.some.injEq, Prod.mk.injEq] at h
    rw [← h.1]
    exact hinv
  | picked qs qn =>
    rw [hcr] at h
    simp only [Option.some.injEq, Prod.mk.injEq] at h
    rw [← h.1]
    rw [LoggedUsersValid_iff]
    intro p hp
    show (dictGet (dictUpdate st.users username (appendAsked qn)) p.2).isSome = true
    rw [dictGet_dictUpdate_isSome]
    exact (LoggedUsersValid_iff st).mp hinv p hp

lemma answer_preserves {st : ServerState} {username : Username}
    {data : Chatlib.Str} {st' : ServerState} {m : Msg} {sv : Bool}
    (hinv : LoggedUsersValid st)
    (h : handle_answer_message st username data = some (st', m, sv)) :
    LoggedUsersValid st' := by
  unfold handle_answer_message at h
  split at h
  · simp only [Option.some.injEq, Prod.mk.injEq] at h
    rw [← h.1]
    exact hinv
  · split at h
    · simp only [Option.some.injEq, Prod.mk.injEq] at h
      rw [← h.1]
      exact hinv
    · split at h
      · split at h
        · exact absurd h (by simp)
        · simp only [Option.some.injEq, Prod.mk.injEq] at h
          rw [← h.1]
          rw [LoggedUsersValid_iff]
          intro p hp
          show (dictGet (dictUpdate st.users username addReward) p.2).isSome = true
          rw [dictGet_dictUpdate_isSome]
          exact (LoggedUsersValid_iff st).mp hinv p hp
      · split at h
        · exact absurd h (by simp)
        · simp only [Option.some.injEq, Prod.mk.injEq] at h
          rw [← h.1]
          exact hinv

end Server

/-- Claim C10: if every live-session username is a key of the users mapping,
then after any dispatched command that returns normally the same holds: login
inserts a session only after finding the username, logout only removes
session entries, and no handler removes a user from the users mapping. -/
theorem C10_logged_users_always_registered (st : Server.ServerState)
    (addr : Server.Addr) (cmd data : Chatlib.Str) (k : Nat)
    (r : Server.DispatchResult)
    (hinv : Server.LoggedUsersValid st)
    (h : Server.handle_client_message st addr cmd data k = some r) :
    Server.LoggedUsersValid r.st := by
  unfold Server.handle_client_message at h
  cases hlog : Server.dictGet st.logged_users addr with
  | none =>
    rw [hlog] at h
    dsimp only at h
    by_cases hcmd : cmd ≠ Server.login_msg
    · rw [if_pos hcmd] at h
      simp only [Option.some.injEq] at h
      rw [← h]
      exact hinv
    · rw [if_neg hcmd] at h
      simp only [Option.some.injEq] at h
      rw [← h]
      exact Server.login_preserves hinv
  | some username =>
    rw [hlog] at h
    dsimp only at h
    by_cases h1 : cmd = Server.logout_msg
    · rw [if_pos h1] at h
      simp only [Option.some.injEq] at h
      rw [← h]
      exact Server.logout_preserves hinv
    rw [if_neg h1] at h
    by_cases h2 : cmd = Server.getscore_msg
    · rw [if_pos h2] at h
      simp only [Option.some.injEq] at h
      rw [← h]
      exact hinv
    rw [if_neg h2] at h
    by_cases h3 : cmd = Server.gethighscore_msg
    · rw [if_pos h3] at h
      simp only [Option.some.injEq] at h
      rw [← h]
      exact hinv
    rw [if_neg h3] at h
    by_cases h4 : cmd = Server.getlogged_msg
    · rw [if_pos h4] at h
      simp only [Option.some.injEq] at h
      rw [← h]
      exact hinv
    rw [if_neg h4] at h
    by_cases h5 : cmd = Server.getquestion_msg
    · rw [if_pos h5] at h
      rw [Option.map_eq_some'] at h
      obtain ⟨a, ha, hfr⟩ := h
      obtain ⟨st₁, m₁, sv₁⟩ := a
      rw [← hfr]
      exact Server.question_preserves hinv ha
    rw [if_neg h5] at h
    by_cases h6 : cmd = Server.sendanswer_msg
    · rw [if_pos h6] at h
      rw [Option.map_eq_some'] at h
      obtain ⟨a, ha, hfr⟩ := h
      obtain ⟨st₁, m₁, sv₁⟩ := a
      rw [← hfr]
      exact Server.answer_preserves hinv ha
    · rw [if_neg h6] at h
      simp only [Option.some.injEq] at h
      rw [← h]
      exact hinv

/-- Witness for C10's theorem: a successful login on a one-user state. -/
theorem C10_logged_users_witness :
    Server.LoggedUsersValid
      (⟨[(['t'], ⟨['t'], 0, []⟩)], [], [(0, ['t'])]⟩ : Server.ServerState) :=
  C10_logged_users_always_registered
    ⟨[(['t'], ⟨['t'], 0, []⟩)], [], []⟩ 0 Server.login_msg (Server.strL "t#t") 0
    ⟨⟨[(['t'], ⟨['t'], 0, []⟩)], [], [(0, ['t'])]⟩,
      [(Server.login_ok_msg, Server.strL "Welcome t!")], false, true⟩
    (by decide) (by decide)
